import Mathlib

/-!
Verification of the shadcn-ui MCP server against its specification.

The development shallowly embeds the request-routing core of the server:
the TTL cache (`src/utils/cache.ts`), the tool/resource dispatchers
(`src/handler.ts`), and the resource-template matcher
(`src/resource-templates.ts`).  JavaScript values that may be `null` are
modelled with `Option`; `Date.now()` is passed explicitly as an `Int`
millisecond timestamp; thrown exceptions are modelled with `Except`.
-/

set_option autoImplicit false

namespace ShadcnMcp

/-! ## Cache (src/utils/cache.ts)

A `CacheItem` mirrors the TS record `{value, timestamp, ttl}`.  The stored
`value` has type `Option V`: `none` models the JS value `null`, so that
`Cache.get`, which returns `item.value` on a hit and `null` on a miss,
returns `Option V` in both cases exactly as the source collapses them. -/

structure CacheItem (V : Type) where
  value : Option V
  timestamp : Int
  ttl : Int
deriving DecidableEq

/-- The cache: a JS `Map<string, CacheItem>` modelled as an association list
with unique keys (writes remove any previous binding), plus the
`defaultTTL` field of the TS class. -/
structure Cache (V : Type) where
  storage : List (String × CacheItem V)
  defaultTTL : Int
deriving DecidableEq

/-- The TS constructor `new Cache(defaultTTL = 3600000)` with empty storage. -/
def Cache.init (V : Type) (defaultTTL : Int) : Cache V :=
  ⟨[], defaultTTL⟩

/-- `set(key, value, ttl)`: unconditional overwrite, storing
`{value, timestamp: Date.now(), ttl}`.  `now` is the explicit clock. -/
def Cache.set {V : Type} (c : Cache V) (key : String) (value : Option V)
    (now ttl : Int) : Cache V :=
  { c with storage := (key, ⟨value, now, ttl⟩) :: c.storage.filter (fun p => p.1 != key) }

/-- `get(key)`: returns `null` if the item is missing; if
`item.ttl > 0 && now - item.timestamp > item.ttl` the item is deleted and
`null` returned; otherwise `item.value` is returned.  The second component
is the post-read storage (the source mutates `this.storage`). -/
def Cache.get {V : Type} (c : Cache V) (key : String) (now : Int) :
    Option V × Cache V :=
  match c.storage.lookup key with
  | none => (none, c)
  | some item =>
    if item.ttl > 0 ∧ now - item.timestamp > item.ttl then
      (none, { c with storage := c.storage.filter (fun p => p.1 != key) })
    else
      (item.value, c)

/-- `getOrFetch(key, fetchFn, ttl)`: return the cached value when
`get` yields a non-`null` value, otherwise invoke the producer, store its
result and return it.  The producer is modelled by the value it returns
(`none` models a producer resolving to `null`); the third component counts
how many times the producer was invoked by this call (0 or 1). -/
def Cache.getOrFetch {V : Type} (c : Cache V) (key : String) (producer : Option V)
    (now ttl : Int) : Option V × Cache V × Nat :=
  match c.get key now with
  | (some v, c2) => (some v, c2, 0)
  | (none, c2) => (producer, c2.set key producer now ttl, 1)

/-- `delete(key)`: removes the binding, returning whether a binding existed
(the boolean result of `Map.delete`). -/
def Cache.delete {V : Type} (c : Cache V) (key : String) : Cache V × Bool :=
  ({ c with storage := c.storage.filter (fun p => p.1 != key) },
   (c.storage.lookup key).isSome)

/-! ## JavaScript values and protocol errors (handler.ts)

`JsValue` models the JSON-ish values flowing through `request.params`.
`JsError` models a thrown exception: `mcp` is an `McpError` carrying an
`ErrorCode` and a message, `untyped` is any other thrown value,
identified by its message string. -/

inductive JsValue where
  | undef
  | nullv
  | boolv (b : Bool)
  | num (n : Int)
  | str (s : String)
  | obj (fields : List (String × JsValue))

/-- The SDK error codes used by the dispatcher.  `methodNotFound` is the
code the SDK reserves for a NotFound-class failure; the handler code under
study only ever constructs `invalidParams` and `internalError`. -/
inductive ErrorCode where
  | invalidParams
  | internalError
  | methodNotFound
deriving DecidableEq

inductive JsError where
  | mcp (code : ErrorCode) (message : String)
  | untyped (message : String)
deriving DecidableEq

/-! ## Zod validation model (schemas/component.ts)

Every input schema of this server is `z.object` over `z.string()` fields,
some marked `.optional()`.  `zodObjectParse` mirrors zod parsing for that
fragment: fields are checked in declaration order, each violation yields a
`ZodIssue` with the field's path and zod's message text, and a successful
parse returns the object restricted to the declared (present) keys, which
is zod's default strip behaviour. -/

structure ZodIssue where
  path : List String
  message : String
deriving DecidableEq

structure FieldSpec where
  fname : String
  required : Bool
deriving DecidableEq

def jsTypeName : JsValue → String
  | .undef => "undefined"
  | .nullv => "null"
  | .boolv _ => "boolean"
  | .num _ => "number"
  | .str _ => "string"
  | .obj _ => "object"

/-- Check one declared string field of an object, in zod style:
a missing or `undefined` required field yields `Required`; a present value
of the wrong type yields an invalid-type issue (even for optional fields). -/
def checkField (fields : List (String × JsValue)) (f : FieldSpec) : Option ZodIssue :=
  match fields.lookup f.fname with
  | none => if f.required then some ⟨[f.fname], "Required"⟩ else none
  | some .undef => if f.required then some ⟨[f.fname], "Required"⟩ else none
  | some (.str _) => none
  | some v => some ⟨[f.fname], "Expected string, received " ++ jsTypeName v⟩

/-- The validated (stripped) object a successful zod parse returns. -/
def stripFields (specs : List FieldSpec) (fields : List (String × JsValue)) :
    List (String × JsValue) :=
  specs.filterMap fun f =>
    match fields.lookup f.fname with
    | none => none
    | some .undef => none
    | some v => some (f.fname, v)

/-- `schema.parse(value)` for a `z.object` of string fields: issues are
collected in field-declaration order. -/
def zodObjectParse (specs : List FieldSpec) (v : JsValue) :
    Except (List ZodIssue) JsValue :=
  match v with
  | .obj fields =>
    match specs.filterMap (checkField fields) with
    | [] => .ok (.obj (stripFields specs fields))
    | issues => .error issues
  | .undef => .error [⟨[], "Required"⟩]
  | other => .error [⟨[], "Expected object, received " ++ jsTypeName other⟩]

/-- The field declarations of the schemas in `schemas/component.ts`. -/
def getComponentFields : List FieldSpec := [⟨"componentName", true⟩]

def getExamplesFields : List FieldSpec := [⟨"componentName", true⟩]

def getUsageFields : List FieldSpec := [⟨"componentName", true⟩]

def searchQueryFields : List FieldSpec := [⟨"query", true⟩]

def getThemesFields : List FieldSpec := [⟨"query", false⟩]

def getBlocksFields : List FieldSpec := [⟨"query", false⟩, ⟨"category", false⟩]

/-- `getToolSchema(toolName)` from handler.ts: the switch mapping tool
names to their zod schemas (`undefined` for schemaless tools). -/
def getToolSchema (toolName : String) :
    Option (JsValue → Except (List ZodIssue) JsValue) :=
  if toolName = "get_component" ∨ toolName = "get_component_details" then
    some (zodObjectParse getComponentFields)
  else if toolName = "get_examples" then some (zodObjectParse getExamplesFields)
  else if toolName = "get_usage" then some (zodObjectParse getUsageFields)
  else if toolName = "search_components" then some (zodObjectParse searchQueryFields)
  else if toolName = "get_themes" then some (zodObjectParse getThemesFields)
  else if toolName = "get_blocks" then some (zodObjectParse getBlocksFields)
  else none

/-- The keys of the `toolHandlers` table in tools.ts. -/
def toolHandlerNames : List String :=
  ["create-message", "list_shadcn_components", "get_component",
   "get_component_details", "get_examples", "get_usage",
   "search_components", "get_themes", "get_blocks"]

/-- The `toolHandlers` lookup table; the handler bodies perform network
I/O, so their behaviour is an `impl` parameter, but the key set is the
source's. -/
def toolHandlers {R : Type} (impl : String → JsValue → Except JsError R) :
    String → Option (JsValue → Except JsError R) :=
  fun name => if name ∈ toolHandlerNames then some (impl name) else none

/-- `err.path.join('.') + ': ' + err.message`, joined with `', '` —
the message body built for a ZodError in the CallTool handler. -/
def joinIssues (issues : List ZodIssue) : String :=
  String.intercalate ", "
    (issues.map fun i => String.intercalate "." i.path ++ ": " ++ i.message)

/-- `await handler(validatedParams)` inside the CallTool try/catch:
an `McpError` is rethrown unchanged, any other exception is wrapped as
`InternalError` with the `Error executing tool:` prefix. -/
def runToolHandler {R : Type} (h : JsValue → Except JsError R) (args : JsValue) :
    Except JsError R :=
  match h args with
  | .ok r => .ok r
  | .error (.mcp c m) => .error (.mcp c m)
  | .error (.untyped m) => .error (.mcp .internalError ("Error executing tool: " ++ m))

/-- The CallTool request handler from `setupHandlers` (handler.ts):
falsy or non-string name → InvalidParams "Tool name is required";
unknown name → InvalidParams "Tool not found: ...";
then optional zod validation (ZodError → InvalidParams listing every
issue), then handler invocation guarded by the catch-and-wrap policy. -/
def callToolDispatch {R : Type}
    (handlers : String → Option (JsValue → Except JsError R))
    (schemaLookup : String → Option (JsValue → Except (List ZodIssue) JsValue))
    (name : JsValue) (params : JsValue) : Except JsError R :=
  match name with
  | .str s =>
    if s = "" then .error (.mcp .invalidParams "Tool name is required")
    else
      match handlers s with
      | none => .error (.mcp .invalidParams ("Tool not found: " ++ s))
      | some handler =>
        match schemaLookup s with
        | some sch =>
          match sch params with
          | .error issues =>
            .error (.mcp .invalidParams ("Invalid parameters: " ++ joinIssues issues))
          | .ok validatedParams => runToolHandler handler validatedParams
        | none => runToolHandler handler params
  | _ => .error (.mcp .invalidParams "Tool name is required")

/-! ## Resources and the ReadResource dispatcher (resources.ts, handler.ts) -/

/-- The `{content, contentType}` record every resource and template
handler resolves to. -/
structure ResourceContent where
  content : String
  contentType : String
deriving DecidableEq

structure ContentItem where
  uri : String
  text : String
deriving DecidableEq

/-- The wire envelope `{contentType, contents: [{uri, text}]}` the
ReadResource handler returns. -/
structure ReadResourceResult where
  contentType : String
  contents : List ContentItem
deriving DecidableEq

/-- The keys of the `resourceHandlers` table in resources.ts. -/
def staticResourceUris : List String :=
  ["resource:shadcn-ui-overview", "resource:shadcn-ui-installation",
   "resource:shadcn-ui-component-list", "resource:shadcn-ui-theming"]

/-- The `resourceHandlers` lookup table; the handler bodies fetch docs
upstream, so their behaviour is an `impl` parameter, but the key set is
the source's. -/
def resourceHandlers (impl : String → Unit → Except JsError ResourceContent) :
    String → Option (Unit → Except JsError ResourceContent) :=
  fun uri => if uri ∈ staticResourceUris then some (impl uri) else none

/-- Wrapping of one resolved handler's outcome by the ReadResource
handler: a success becomes the wire envelope, an `McpError` is rethrown
unchanged, anything else becomes `InternalError` with the
`Error processing resource:` prefix. -/
def wrapResourceOutcome (uri : String) (out : Except JsError ResourceContent) :
    Except JsError ReadResourceResult :=
  match out with
  | .ok r => .ok ⟨r.contentType, [⟨uri, r.content⟩]⟩
  | .error (.mcp c m) => .error (.mcp c m)
  | .error (.untyped m) =>
    .error (.mcp .internalError ("Error processing resource: " ++ m))

/-- The ReadResource request handler from `setupHandlers` (handler.ts):
exact static lookup first, the template matcher only on a miss, and
InvalidParams "Resource not found: ..." when both miss. -/
def readResourceDispatch
    (staticTable : String → Option (Unit → Except JsError ResourceContent))
    (templateTable : String → Option (Unit → Except JsError ResourceContent))
    (uri : String) : Except JsError ReadResourceResult :=
  match staticTable uri with
  | some h => wrapResourceOutcome uri (h ())
  | none =>
    match templateTable uri with
    | some h => wrapResourceOutcome uri (h ())
    | none => .error (.mcp .invalidParams ("Resource not found: " ++ uri))

/-! ## Resource templates (resource-templates.ts)

The two registered templates are pure string builders, so their handlers
are modelled as total functions into `ResourceContent` (their bodies
have a try/catch, but no statement in them can throw). -/

/-- A string-prefix test, `uri.startsWith(prefix)`. -/
def strStartsWith (s p : String) : Bool :=
  p.toList.isPrefixOf s.toList

/-- `s.toLowerCase()`; ASCII lowering, which agrees with JS on every
string the templates compare against. -/
def strToLower (s : String) : String :=
  String.mk (s.toList.map Char.toLower)

/-- The greedy `[^&]+` capture: the maximal run of characters before the
next `&`. -/
def takeNonAmp : List Char → List Char
  | [] => []
  | c :: cs => if c = '&' then [] else c :: takeNonAmp cs

/-- Leftmost match of the regex `pat([^&]+)` (with `pat` literal): at each
position, if the literal matches and at least one non-`&` character
follows it, capture that run; otherwise resume the search one position
further, as the JS regex engine does. -/
def findParamMatch (pat : List Char) : List Char → Option (List Char)
  | [] => none
  | c :: cs =>
    if pat.isPrefixOf (c :: cs) then
      let run := takeNonAmp ((c :: cs).drop pat.length)
      if run.isEmpty then findParamMatch pat cs else some run
    else findParamMatch pat cs

/-- `extractParam(uri, paramName)`:
`uri.match(new RegExp(paramName + "=([^&]+)"))?.[1]`. -/
def extractParam (uri : String) (paramName : String) : Option String :=
  (findParamMatch (paramName.toList ++ ['=']) uri.toList).map fun cs => String.mk cs

def installScriptPrefix : String :=
  "resource-template:get_install_script_for_component"

def installationGuidePrefix : String :=
  "resource-template:get_installation_guide"

/-- The `switch (packageManager.toLowerCase())` computing
`installCommand` in the install-script handler. -/
def installCommand (packageManager component : String) : String :=
  if strToLower packageManager = "npm" then "npx shadcn@latest add " ++ component
  else if strToLower packageManager = "pnpm" then "pnpm dlx shadcn@latest add " ++ component
  else if strToLower packageManager = "yarn" then "yarn dlx shadcn@latest add " ++ component
  else if strToLower packageManager = "bun" then "bunx --bun shadcn@latest add " ++ component
  else "npx shadcn@latest add " ++ component

/-- Body of the `get_install_script_for_component` template handler:
extract both parameters, report a missing one as plain content, else
produce the one-line install command. -/
def installScriptResult (uri : String) : ResourceContent :=
  match extractParam uri "packageManager" with
  | none =>
    ⟨"Missing packageManager parameter. Please specify npm, pnpm, or yarn.",
     "text/plain"⟩
  | some packageManager =>
    match extractParam uri "component" with
    | none =>
      ⟨"Missing component parameter. Please specify the component name.",
       "text/plain"⟩
    | some component => ⟨installCommand packageManager component, "text/plain"⟩

/-- The repeated `shadcn-ui@latest init` ternary chain of the guide
handler. -/
def shadcnInitCmd (pm : String) : String :=
  if pm = "npm" then "npx shadcn-ui@latest init"
  else if pm = "pnpm" then "pnpm dlx shadcn-ui@latest init"
  else if pm = "yarn" then "yarn dlx shadcn-ui@latest init"
  else if pm = "bun" then "bunx --bun shadcn-ui@latest init"
  else "npx shadcn-ui@latest init"

/-- The repeated `shadcn-ui@latest add button` ternary chain of the guide
handler. -/
def shadcnAddCmd (pm : String) : String :=
  if pm = "npm" then "npx shadcn-ui@latest add button"
  else if pm = "pnpm" then "pnpm dlx shadcn-ui@latest add button"
  else if pm = "yarn" then "yarn dlx shadcn-ui@latest add button"
  else if pm = "bun" then "bunx --bun shadcn-ui@latest add button"
  else "npx shadcn-ui@latest add button"

structure GuideEntry where
  description : String
  steps : List String

def nextGuide (pm : String) : GuideEntry :=
  ⟨"Installation guide for Next.js project",
   ["Create a Next.js project if you don\x27t have one already:",
    pm ++ " create next-app my-app",
    "",
    "Navigate to your project directory:",
    "cd my-app",
    "",
    "Add shadcn/ui to your project:",
    shadcnInitCmd pm,
    "",
    "Follow the prompts to select your preferences",
    "",
    "Once initialized, you can add components:",
    shadcnAddCmd pm,
    "",
    "Now you can use the component in your project!"]⟩

def viteGuide (pm : String) : GuideEntry :=
  ⟨"Installation guide for Vite project",
   ["Create a Vite project if you don\x27t have one already:",
    pm ++ (if pm = "npm" then " create" else "") ++ " vite my-app -- --template react-ts",
    "",
    "Navigate to your project directory:",
    "cd my-app",
    "",
    "Install dependencies:",
    pm ++ " " ++ (if pm = "npm" then "install" else "add") ++ " -D tailwindcss postcss autoprefixer",
    "",
    "Initialize Tailwind CSS:",
    "npx tailwindcss init -p",
    "",
    "Add shadcn/ui to your project:",
    shadcnInitCmd pm,
    "",
    "Follow the prompts to select your preferences",
    "",
    "Once initialized, you can add components:",
    shadcnAddCmd pm,
    "",
    "Now you can use the component in your project!"]⟩

def remixGuide (pm : String) : GuideEntry :=
  ⟨"Installation guide for Remix project",
   ["Create a Remix project if you don\x27t have one already:",
    (if pm = "npm" then "npx"
     else if pm = "pnpm" then "pnpm dlx"
     else if pm = "yarn" then "yarn dlx"
     else "bunx") ++ " create-remix my-app",
    "",
    "Navigate to your project directory:",
    "cd my-app",
    "",
    "Install dependencies:",
    pm ++ " " ++ (if pm = "npm" then "install" else "add") ++ " -D tailwindcss postcss autoprefixer",
    "",
    "Initialize Tailwind CSS:",
    "npx tailwindcss init -p",
    "",
    "Add shadcn/ui to your project:",
    shadcnInitCmd pm,
    "",
    "Follow the prompts to select your preferences",
    "",
    "Once initialized, you can add components:",
    shadcnAddCmd pm,
    "",
    "Now you can use the component in your project!"]⟩

def defaultGuide (pm : String) : GuideEntry :=
  ⟨"Generic installation guide",
   ["Make sure you have a React project set up",
    "",
    "Add shadcn/ui to your project:",
    shadcnInitCmd pm,
    "",
    "Follow the prompts to select your preferences",
    "",
    "Once initialized, you can add components:",
    shadcnAddCmd pm,
    "",
    "Now you can use the component in your project!"]⟩

/-- Body of the `get_installation_guide` template handler: extract
`framework` then `packageManager`, report a missing one as plain content,
else select a guide by `framework.toLowerCase()` falling back to the
default entry, and join its steps. -/
def installationGuideResult (uri : String) : ResourceContent :=
  match extractParam uri "framework" with
  | none =>
    ⟨"Missing framework parameter. Please specify next, vite, remix, etc.",
     "text/plain"⟩
  | some framework =>
    match extractParam uri "packageManager" with
    | none =>
      ⟨"Missing packageManager parameter. Please specify npm, pnpm, or yarn.",
       "text/plain"⟩
    | some packageManager =>
      let guide :=
        if strToLower framework = "next" then nextGuide packageManager
        else if strToLower framework = "vite" then viteGuide packageManager
        else if strToLower framework = "remix" then remixGuide packageManager
        else defaultGuide packageManager
      ⟨"# " ++ guide.description ++ " with " ++ packageManager ++ "\n\n"
         ++ String.intercalate "\n" guide.steps,
       "text/plain"⟩

/-- `getResourceTemplate(uri)` from resource-templates.ts: prefix
dispatch over the two registered templates, `undefined` otherwise. -/
def getResourceTemplate (uri : String) : Option (Unit → ResourceContent) :=
  if strStartsWith uri installScriptPrefix then some fun _ => installScriptResult uri
  else if strStartsWith uri installationGuidePrefix then
    some fun _ => installationGuideResult uri
  else none

/-- Adapter plugging the (non-throwing) template handlers into the
dispatcher's table shape. -/
def liftTemplates (g : String → Option (Unit → ResourceContent)) :
    String → Option (Unit → Except JsError ResourceContent) :=
  fun uri => (g uri).map fun h => fun _ => .ok (h ())

/-- Modelled from the spec: the URL-decoding (`decodeURIComponent`-style
percent-decoding) that the spec's matching algorithm step (c) requires of
each extracted parameter value.  The source has no such step; this
definition exists only to state that requirement. -/
def hexVal (c : Char) : Option Nat :=
  if '0' ≤ c ∧ c ≤ '9' then some (c.toNat - '0'.toNat)
  else if 'a' ≤ c ∧ c ≤ 'f' then some (c.toNat - 'a'.toNat + 10)
  else if 'A' ≤ c ∧ c ≤ 'F' then some (c.toNat - 'A'.toNat + 10)
  else none

/-- Modelled from the spec: percent-decoding of a character sequence;
a well-formed escape `%hh` decodes to its code point, anything else is
kept verbatim. -/
def specUrlDecode : List Char → List Char
  | [] => []
  | '%' :: h1 :: h2 :: rest =>
    match hexVal h1, hexVal h2 with
    | some a, some b => Char.ofNat (16 * a + b) :: specUrlDecode rest
    | _, _ => '%' :: h1 :: h2 :: specUrlDecode rest
  | c :: rest => c :: specUrlDecode rest

/-! ## Helper lemmas -/

theorem lookup_filter_ne {β : Type} (k : String) (l : List (String × β)) :
    (l.filter (fun p => p.1 != k)).lookup k = none := by
  induction l with
  | nil => rfl
  | cons hd tl ih =>
    rcases hd with ⟨a, b⟩
    by_cases h : a = k
    · subst h
      simpa [List.filter_cons] using ih
    · simp only [List.filter_cons]
      have hne : (a != k) = true := by simpa using h
      simp only [hne, if_pos]
      have hke : (k == a) = false := by
        simp [BEq.beq]
        exact fun hk => h hk.symm
      simp [List.lookup, hke, ih]

theorem lookup_set_self {V : Type} (c : Cache V) (k : String) (v : Option V)
    (now ttl : Int) :
    ((Cache.set c k v now ttl).storage).lookup k = some ⟨v, now, ttl⟩ := by
  simp [Cache.set, List.lookup]

theorem get_of_lookup {V : Type} (c : Cache V) (key : String) (now : Int)
    (item : CacheItem V) (h : c.storage.lookup key = some item) :
    c.get key now =
      if item.ttl > 0 ∧ now - item.timestamp > item.ttl then
        (none, { c with storage := c.storage.filter (fun p => p.1 != key) })
      else (item.value, c) := by
  unfold Cache.get
  rw [h]

theorem get_set_live {V : Type} (c : Cache V) (key : String) (v : Option V)
    (t0 ttl t : Int) (h : ttl ≤ 0 ∨ t - t0 ≤ ttl) :
    (Cache.set c key v t0 ttl).get key t = (v, Cache.set c key v t0 ttl) := by
  rw [get_of_lookup (Cache.set c key v t0 ttl) key t ⟨v, t0, ttl⟩ (lookup_set_self c key v t0 ttl)]
  have hne : ¬ (ttl > 0 ∧ t - t0 > ttl) := by omega
  simp [hne]

theorem get_none {V : Type} (c : Cache V) (key : String) (now : Int)
    (h : c.storage.lookup key = none) : c.get key now = (none, c) := by
  unfold Cache.get
  rw [h]

theorem getOrFetch_miss {V : Type} (c c2 : Cache V) (key : String) (p : Option V)
    (now ttl : Int) (h : c.get key now = (none, c2)) :
    Cache.getOrFetch c key p now ttl = (p, c2.set key p now ttl, 1) := by
  unfold Cache.getOrFetch
  rw [h]

theorem getOrFetch_hit {V : Type} (c c2 : Cache V) (key : String) (v : V)
    (p : Option V) (now ttl : Int) (h : c.get key now = (some v, c2)) :
    Cache.getOrFetch c key p now ttl = (some v, c2, 0) := by
  unfold Cache.getOrFetch
  rw [h]

theorem get_set_expired {V : Type} (c : Cache V) (key : String) (v : Option V)
    (t0 ttl t : Int) (h : 0 < ttl ∧ ttl < t - t0) :
    ((Cache.set c key v t0 ttl).get key t).1 = none ∧
    (((Cache.set c key v t0 ttl).get key t).2.storage.lookup key) = none := by
  rw [get_of_lookup (Cache.set c key v t0 ttl) key t ⟨v, t0, ttl⟩ (lookup_set_self c key v t0 ttl)]
  have hc : (ttl > 0 ∧ t - t0 > ttl) := by omega
  rw [if_pos hc]
  exact ⟨rfl, lookup_filter_ne key _⟩

/-! ## Claim C3 -/

/-- Claim C3, counterexample: the claim makes an entry written with
`ttl = 5` at `t0 = 0` absent at `t = 5` (since neither `ttl ≤ 0` nor
`t - t0 < ttl` holds there), but `Cache.get` still returns the stored
value at that instant: the code's expiry test is strict
(`now - timestamp > ttl`), so the entry is visible through `t - t0 = ttl`. -/
theorem cache_expiry_boundary_cex :
    ((Cache.set (Cache.init Nat 3600000) "k" (some 42) 0 5).get "k" 5).1 = some 42 ∧
    ¬ ((5 : Int) ≤ 0 ∨ (5 : Int) - 0 < 5) := by
  constructor
  · rfl
  · decide

/-- Claim C3 (amended): a value stored with time-to-live `ttl` at `t0` is
returned by `get` at `t` iff `ttl ≤ 0` (expiry disabled) or
`t - t0 ≤ ttl`; when `0 < ttl < t - t0` the read returns `none` and
deletes the entry from the store. -/
theorem cache_set_get_visibility (V : Type) (c : Cache V) (key : String)
    (v : Option V) (t0 ttl t : Int) :
    ((ttl ≤ 0 ∨ t - t0 ≤ ttl) → ((Cache.set c key v t0 ttl).get key t).1 = v) ∧
    (0 < ttl ∧ ttl < t - t0 →
      ((Cache.set c key v t0 ttl).get key t).1 = none ∧
      (((Cache.set c key v t0 ttl).get key t).2.storage.lookup key) = none) := by
  constructor
  · intro h
    rw [get_set_live c key v t0 ttl t h]
  · intro h
    exact get_set_expired c key v t0 ttl t h

/-- Claim C3 witness: a fresh read at `t = 3` of a `ttl = 5` entry
returns the value; at `t = 9` it misses and the entry is gone. -/
theorem cache_set_get_visibility_witness :
    ((Cache.set (Cache.init Nat 3600000) "k" (some 7) 0 5).get "k" 3).1 = some 7 ∧
    ((Cache.set (Cache.init Nat 3600000) "k" (some 7) 0 5).get "k" 9).1 = none := by
  exact ⟨(cache_set_get_visibility Nat (Cache.init Nat 3600000) "k" (some 7) 0 5 3).1
      (by decide),
    ((cache_set_get_visibility Nat (Cache.init Nat 3600000) "k" (some 7) 0 5 9).2
      (by decide)).1⟩

/-! ## Claim C4 -/

/-- Claim C4, counterexample: for a producer resolving to `null`
(modelled `none`), the first `getOrFetch` invokes the producer (count 1)
and so does an immediate second call for the same key within the ttl
(count 1 again) — two invocations, not the "exactly once" the claim
asserts for every producer, because the stored `null` is
indistinguishable from a miss in `get`. -/
theorem getOrFetch_null_producer_cex :
    (Cache.getOrFetch (Cache.init Nat 3600000) "k" none 0 1000).2.2 = 1 ∧
    (Cache.getOrFetch
      ((Cache.getOrFetch (Cache.init Nat 3600000) "k" none 0 1000).2.1)
      "k" none 0 1000).2.2 = 1 := by
  constructor <;> rfl

/-- Claim C4 (amended): for every producer whose result is non-`null`,
if the first `getOrFetch` at `t0` misses the cache, it invokes the
producer exactly once and returns its value, and a second call at any
`t1` within the entry's time-to-live (or with expiry disabled) returns
the stored value without invoking its producer at all — whatever that
second producer would return. -/
theorem getOrFetch_single_fetch (V : Type) (c : Cache V) (key : String)
    (v : V) (p : Option V) (t0 t1 ttl : Int)
    (hmiss : (c.get key t0).1 = none) (hlive : ttl ≤ 0 ∨ t1 - t0 ≤ ttl) :
    (Cache.getOrFetch c key (some v) t0 ttl).1 = some v ∧
    (Cache.getOrFetch c key (some v) t0 ttl).2.2 = 1 ∧
    (Cache.getOrFetch ((Cache.getOrFetch c key (some v) t0 ttl).2.1) key p t1 ttl).1
      = some v ∧
    (Cache.getOrFetch ((Cache.getOrFetch c key (some v) t0 ttl).2.1) key p t1 ttl).2.2
      = 0 := by
  have hpair : c.get key t0 = (none, (c.get key t0).2) := by
    rw [← hmiss]
  have h1 : Cache.getOrFetch c key (some v) t0 ttl
      = (some v, ((c.get key t0).2).set key (some v) t0 ttl, 1) :=
    getOrFetch_miss c ((c.get key t0).2) key (some v) t0 ttl hpair
  have h2 : (((c.get key t0).2).set key (some v) t0 ttl).get key t1
      = (some v, ((c.get key t0).2).set key (some v) t0 ttl) :=
    get_set_live _ key (some v) t0 ttl t1 hlive
  have h3 := getOrFetch_hit _ _ key v p t1 ttl h2
  refine ⟨by rw [h1], by rw [h1], ?_, ?_⟩ <;>
    · rw [h1]
      rw [h3]

/-- Claim C4 witness: value 7 fetched once at `t0 = 0`, second call at
`t1 = 500` with ttl 1000 hits the cache and fetches zero times. -/
theorem getOrFetch_single_fetch_witness :
    (Cache.getOrFetch (Cache.init Nat 3600000) "k" (some 7) 0 1000).2.2 = 1 ∧
    (Cache.getOrFetch
      ((Cache.getOrFetch (Cache.init Nat 3600000) "k" (some 7) 0 1000).2.1)
      "k" (some 9) 500 1000).2.2 = 0 := by
  have h := getOrFetch_single_fetch Nat (Cache.init Nat 3600000) "k" 7 (some 9) 0 500 1000
    (by rfl) (by decide)
  exact ⟨h.2.1, h.2.2.2⟩

/-! ## Claim C10 -/

/-- Claim C10: an unexpired entry whose stored value is `null` is read
back as `null` by `Cache.get`, exactly as if the key had been deleted
(indistinguishable from absence), even though the entry is still in the
store; consequently `getOrFetch` invokes its producer again on a
subsequent call within the ttl after a producer returned `null`. -/
theorem cache_null_value (V : Type) (c : Cache V) (key : String)
    (t0 ttl t : Int) (p : Option V) (hlive : ttl ≤ 0 ∨ t - t0 ≤ ttl) :
    ((Cache.set c key none t0 ttl).get key t).1 = none ∧
    ((Cache.set c key none t0 ttl).get key t).1
      = ((((Cache.set c key none t0 ttl).delete key).1).get key t).1 ∧
    (((Cache.set c key none t0 ttl).storage.lookup key).isSome = true) ∧
    (Cache.getOrFetch (Cache.set c key none t0 ttl) key p t ttl).2.2 = 1 := by
  have hget : (Cache.set c key none t0 ttl).get key t
      = (none, Cache.set c key none t0 ttl) :=
    get_set_live c key none t0 ttl t hlive
  have hstor : (((Cache.set c key none t0 ttl).delete key).1).storage.lookup key
      = none := lookup_filter_ne key _
  have hdel := get_none (((Cache.set c key none t0 ttl).delete key).1) key t hstor
  refine ⟨by rw [hget], by rw [hget, hdel], ?_, ?_⟩
  · rw [lookup_set_self]
    rfl
  · rw [getOrFetch_miss (Cache.set c key none t0 ttl) (Cache.set c key none t0 ttl)
      key p t ttl hget]

/-- Claim C10 witness: storing `null` at `t0 = 0` with ttl 1000, a read
at `t = 10` returns `null` like a deleted key, the entry still exists,
and `getOrFetch` at `t = 10` invokes its producer. -/
theorem cache_null_value_witness :
    ((Cache.set (Cache.init Nat 3600000) "k" none 0 1000).get "k" 10).1 = none ∧
    (Cache.getOrFetch (Cache.set (Cache.init Nat 3600000) "k" none 0 1000)
      "k" (some 5) 10 1000).2.2 = 1 := by
  have h := cache_null_value Nat (Cache.init Nat 3600000) "k" 0 1000 10 (some 5)
    (by decide)
  exact ⟨h.1, h.2.2.2⟩

theorem runToolHandler_ok {R : Type} (h : JsValue → Except JsError R)
    (args : JsValue) (r : R) (hh : h args = .ok r) :
    runToolHandler h args = .ok r := by
  unfold runToolHandler
  rw [hh]

theorem runToolHandler_mcp {R : Type} (h : JsValue → Except JsError R)
    (args : JsValue) (cd : ErrorCode) (m : String)
    (hh : h args = .error (.mcp cd m)) :
    runToolHandler h args = .error (.mcp cd m) := by
  unfold runToolHandler
  rw [hh]

theorem runToolHandler_untyped {R : Type} (h : JsValue → Except JsError R)
    (args : JsValue) (m : String) (hh : h args = .error (.untyped m)) :
    runToolHandler h args = .error (.mcp .internalError ("Error executing tool: " ++ m)) := by
  unfold runToolHandler
  rw [hh]

theorem runToolHandler_error_typed {R : Type} (h : JsValue → Except JsError R)
    (args : JsValue) (e : JsError) (he : runToolHandler h args = .error e) :
    ∃ cd m, e = .mcp cd m := by
  rcases hh : h args with err | r
  case ok =>
    rw [runToolHandler_ok h args r hh] at he
    simp at he
  case error =>
    cases err with
    | mcp cd m =>
      rw [runToolHandler_mcp h args cd m hh] at he
      injection he with h1
      exact ⟨cd, m, h1.symm⟩
    | untyped m =>
      rw [runToolHandler_untyped h args m hh] at he
      injection he with h1
      exact ⟨.internalError, "Error executing tool: " ++ m, h1.symm⟩

theorem callToolDispatch_str {R : Type}
    (handlers : String → Option (JsValue → Except JsError R))
    (schemaLookup : String → Option (JsValue → Except (List ZodIssue) JsValue))
    (s : String) (params : JsValue) :
    callToolDispatch handlers schemaLookup (.str s) params
      = if s = "" then .error (.mcp .invalidParams "Tool name is required")
        else match handlers s with
        | none => .error (.mcp .invalidParams ("Tool not found: " ++ s))
        | some handler =>
          match schemaLookup s with
          | some sch =>
            match sch params with
            | .error issues =>
              .error (.mcp .invalidParams ("Invalid parameters: " ++ joinIssues issues))
            | .ok validatedParams => runToolHandler handler validatedParams
          | none => runToolHandler handler params := rfl

theorem callToolDispatch_noHandler {R : Type}
    (handlers : String → Option (JsValue → Except JsError R))
    (schemaLookup : String → Option (JsValue → Except (List ZodIssue) JsValue))
    (s : String) (params : JsValue)
    (hne : ¬ s = "") (hh : handlers s = none) :
    callToolDispatch handlers schemaLookup (.str s) params
      = .error (.mcp .invalidParams ("Tool not found: " ++ s)) := by
  rw [callToolDispatch_str, if_neg hne, hh]

theorem callToolDispatch_noSchema {R : Type}
    (handlers : String → Option (JsValue → Except JsError R))
    (schemaLookup : String → Option (JsValue → Except (List ZodIssue) JsValue))
    (s : String) (params : JsValue) (h : JsValue → Except JsError R)
    (hne : ¬ s = "") (hh : handlers s = some h) (hsch : schemaLookup s = none) :
    callToolDispatch handlers schemaLookup (.str s) params = runToolHandler h params := by
  rw [callToolDispatch_str, if_neg hne, hh, hsch]

theorem callToolDispatch_hasSchema {R : Type}
    (handlers : String → Option (JsValue → Except JsError R))
    (schemaLookup : String → Option (JsValue → Except (List ZodIssue) JsValue))
    (s : String) (params : JsValue) (h : JsValue → Except JsError R)
    (sch : JsValue → Except (List ZodIssue) JsValue)
    (hne : ¬ s = "") (hh : handlers s = some h) (hsch : schemaLookup s = some sch) :
    callToolDispatch handlers schemaLookup (.str s) params
      = match sch params with
        | .error issues =>
          .error (.mcp .invalidParams ("Invalid parameters: " ++ joinIssues issues))
        | .ok validatedParams => runToolHandler h validatedParams := by
  rw [callToolDispatch_str, if_neg hne, hh, hsch]

theorem callTool_failure_typed {R : Type}
    (hs : String → Option (JsValue → Except JsError R))
    (schemaLookup : String → Option (JsValue → Except (List ZodIssue) JsValue))
    (nm ps : JsValue) (e : JsError)
    (he : callToolDispatch hs schemaLookup nm ps = .error e) :
    ∃ cd m, e = .mcp cd m := by
  cases nm with
  | str s =>
    by_cases hse : s = ""
    · rw [callToolDispatch_str, if_pos hse] at he
      injection he with h1
      exact ⟨_, _, h1.symm⟩
    · rcases hh : hs s with _ | h
      · rw [callToolDispatch_noHandler hs schemaLookup s ps hse hh] at he
        injection he with h1
        exact ⟨_, _, h1.symm⟩
      · rcases hsch : schemaLookup s with _ | sch
        · rw [callToolDispatch_noSchema hs schemaLookup s ps h hse hh hsch] at he
          exact runToolHandler_error_typed h ps e he
        · rw [callToolDispatch_hasSchema hs schemaLookup s ps h sch hse hh hsch] at he
          rcases hp : sch ps with issues | vp <;> rw [hp] at he
          · have he2 : Except.error
                (JsError.mcp ErrorCode.invalidParams
                  ("Invalid parameters: " ++ joinIssues issues)) = Except.error e := he
            injection he2 with h1
            exact ⟨_, _, h1.symm⟩
          · exact runToolHandler_error_typed h vp e
              (show runToolHandler h vp = Except.error e from he)
  | undef =>
    injection (show Except.error (JsError.mcp ErrorCode.invalidParams "Tool name is required")
      = Except.error e from he) with h1
    exact ⟨_, _, h1.symm⟩
  | nullv =>
    injection (show Except.error (JsError.mcp ErrorCode.invalidParams "Tool name is required")
      = Except.error e from he) with h1
    exact ⟨_, _, h1.symm⟩
  | boolv b =>
    injection (show Except.error (JsError.mcp ErrorCode.invalidParams "Tool name is required")
      = Except.error e from he) with h1
    exact ⟨_, _, h1.symm⟩
  | num n =>
    injection (show Except.error (JsError.mcp ErrorCode.invalidParams "Tool name is required")
      = Except.error e from he) with h1
    exact ⟨_, _, h1.symm⟩
  | obj fs =>
    injection (show Except.error (JsError.mcp ErrorCode.invalidParams "Tool name is required")
      = Except.error e from he) with h1
    exact ⟨_, _, h1.symm⟩

/-! ## Claim C1 -/

/-- Claim C1, counterexample: a call to the unregistered tool
`not_a_tool` and a read of the unmatched URI `resource:does-not-exist`
both fail with an `InvalidParams`-class `McpError` — not a
NotFound-class one (`methodNotFound`) as the claim asserts — even though
the messages do reference the offending name and uri. -/
theorem callTool_unknown_name_cex :
    callToolDispatch (toolHandlers (fun _ => fun _ => Except.ok ())) getToolSchema
      (.str "not_a_tool") .undef
      = .error (.mcp .invalidParams "Tool not found: not_a_tool") ∧
    readResourceDispatch
      (resourceHandlers (fun _ => fun _ => Except.ok ⟨"", "text/plain"⟩))
      (liftTemplates getResourceTemplate) "resource:does-not-exist"
      = .error (.mcp .invalidParams "Resource not found: resource:does-not-exist") ∧
    ErrorCode.invalidParams ≠ ErrorCode.methodNotFound := by
  refine ⟨rfl, rfl, by decide⟩

/-- Claim C1 (amended): a `call_tool` whose name has no registered
handler, and a `read_resource` whose URI matches neither a static
resource nor a template prefix, fail with an `InvalidParams`-class error
whose message references the offending name ("Tool not found: ...") or
uri ("Resource not found: ..."). -/
theorem callTool_unknown_name_invalidParams (R : Type)
    (impl : String → JsValue → Except JsError R)
    (rimpl : String → Unit → Except JsError ResourceContent)
    (name : String) (params : JsValue) (uri : String)
    (h1 : ¬ name = "") (h2 : ¬ name ∈ toolHandlerNames)
    (h3 : ¬ uri ∈ staticResourceUris)
    (h4 : strStartsWith uri installScriptPrefix = false)
    (h5 : strStartsWith uri installationGuidePrefix = false) :
    callToolDispatch (toolHandlers impl) getToolSchema (.str name) params
      = .error (.mcp .invalidParams ("Tool not found: " ++ name)) ∧
    readResourceDispatch (resourceHandlers rimpl)
      (liftTemplates getResourceTemplate) uri
      = .error (.mcp .invalidParams ("Resource not found: " ++ uri)) := by
  constructor
  · have hto : toolHandlers impl name = none := by
      unfold toolHandlers
      rw [if_neg h2]
    exact callToolDispatch_noHandler (toolHandlers impl) getToolSchema name params h1 hto
  · have hstat : resourceHandlers rimpl uri = none := by
      unfold resourceHandlers
      rw [if_neg h3]
    have htempl : getResourceTemplate uri = none := by
      unfold getResourceTemplate
      rw [h4, h5]
      simp
    have hlift : liftTemplates getResourceTemplate uri = none := by
      unfold liftTemplates
      rw [htempl]
      rfl
    unfold readResourceDispatch
    rw [hstat, hlift]

/-- Claim C1 witness: instantiation at the unregistered name `nope` and
the unmatched uri `foo:bar`. -/
theorem callTool_unknown_name_invalidParams_witness :
    callToolDispatch (toolHandlers (fun _ => fun _ => Except.ok true)) getToolSchema
      (.str "nope") (.obj [])
      = .error (.mcp .invalidParams ("Tool not found: " ++ "nope")) ∧
    readResourceDispatch
      (resourceHandlers (fun _ => fun _ => Except.ok ⟨"c", "t"⟩))
      (liftTemplates getResourceTemplate) "foo:bar"
      = .error (.mcp .invalidParams ("Resource not found: " ++ "foo:bar")) := by
  exact callTool_unknown_name_invalidParams Bool (fun _ => fun _ => Except.ok true)
    (fun _ => fun _ => Except.ok ⟨"c", "t"⟩) "nope" (.obj []) "foo:bar"
    (by decide) (by decide) (by decide) (by decide) (by decide)

/-! ## Claim C2 -/

/-- Claim C2: when the requested URI has an exact entry in the static
resource table, the ReadResource dispatcher returns that handler's
wrapped result and the outcome is identical under any two template
matchers (the matcher is never consulted); the template matcher decides
the result only when the exact lookup misses. -/
theorem readResource_static_priority
    (s t u : String → Option (Unit → Except JsError ResourceContent))
    (uri : String) :
    (∀ h, s uri = some h →
      readResourceDispatch s t uri = wrapResourceOutcome uri (h ()) ∧
      readResourceDispatch s t uri = readResourceDispatch s u uri) ∧
    (s uri = none → ∀ h, t uri = some h →
      readResourceDispatch s t uri = wrapResourceOutcome uri (h ())) := by
  constructor
  · intro h hs
    constructor <;> (unfold readResourceDispatch; rw [hs])
  · intro hs h ht
    unfold readResourceDispatch
    rw [hs, ht]

/-- Claim C2 witness: a static table entry whose key also matches the
`get_installation_guide` template prefix wins over the template matcher,
which would have matched this URI (`isSome`). -/
theorem readResource_static_priority_witness :
    readResourceDispatch
      (fun v =>
        if v = "resource-template:get_installation_guide?framework=next&packageManager=npm"
        then some (fun _ => Except.ok (⟨"STATIC WINS", "text/plain"⟩ : ResourceContent))
        else none)
      (liftTemplates getResourceTemplate)
      "resource-template:get_installation_guide?framework=next&packageManager=npm"
      = Except.ok ⟨"text/plain",
          [⟨"resource-template:get_installation_guide?framework=next&packageManager=npm",
            "STATIC WINS"⟩]⟩ ∧
    (liftTemplates getResourceTemplate
      "resource-template:get_installation_guide?framework=next&packageManager=npm").isSome
      = true := by
  constructor
  · exact ((readResource_static_priority
      (fun v =>
        if v = "resource-template:get_installation_guide?framework=next&packageManager=npm"
        then some (fun _ => Except.ok (⟨"STATIC WINS", "text/plain"⟩ : ResourceContent))
        else none)
      (liftTemplates getResourceTemplate) (liftTemplates getResourceTemplate)
      "resource-template:get_installation_guide?framework=next&packageManager=npm").1
      (fun _ => Except.ok (⟨"STATIC WINS", "text/plain"⟩ : ResourceContent)) (by rfl)).1
  · rfl

/-! ## Claim C5 -/

/-- Claim C5: for a tool with a declared schema, the arguments are parsed
before the handler runs: a failed parse makes the dispatcher fail with an
InvalidParams error whose message lists every issue (field path and
reason) joined with `', '` in the order the schema produced them — field
declaration order for the object schemas of this server — independent of
the handler; a successful parse hands the handler exactly the validated
value, never the raw arguments. -/
theorem callTool_validation (R : Type)
    (hs : String → Option (JsValue → Except JsError R))
    (name : String) (h : JsValue → Except JsError R)
    (sch : JsValue → Except (List ZodIssue) JsValue) (params : JsValue)
    (hne : ¬ name = "") (hh : hs name = some h)
    (hsch : getToolSchema name = some sch) :
    (∀ issues, sch params = .error issues →
      callToolDispatch hs getToolSchema (.str name) params
        = .error (.mcp .invalidParams ("Invalid parameters: " ++ joinIssues issues))) ∧
    (∀ vp, sch params = .ok vp →
      callToolDispatch hs getToolSchema (.str name) params = runToolHandler h vp) := by
  constructor
  · intro issues hi
    rw [callToolDispatch_hasSchema hs getToolSchema name params h sch hne hh hsch, hi]
  · intro vp hv
    rw [callToolDispatch_hasSchema hs getToolSchema name params h sch hne hh hsch, hv]

/-- Claim C5 witness: `get_blocks` with two wrongly-typed fields fails
InvalidParams, listing both violations in declaration order
(`query` before `category`). -/
theorem callTool_validation_witness :
    callToolDispatch (toolHandlers (fun _ => fun _ => Except.ok ())) getToolSchema
      (.str "get_blocks") (.obj [("query", .num 1), ("category", .num 2)])
      = .error (.mcp .invalidParams
          "Invalid parameters: query: Expected string, received number, category: Expected string, received number") := by
  exact (callTool_validation Unit (toolHandlers (fun _ => fun _ => Except.ok ()))
    "get_blocks" (fun _ => Except.ok ()) (zodObjectParse getBlocksFields)
    (.obj [("query", .num 1), ("category", .num 2)])
    (by decide) rfl rfl).1
    [⟨["query"], "Expected string, received number"⟩,
     ⟨["category"], "Expected string, received number"⟩]
    rfl

/-! ## Claim C6 -/

/-- Claim C6: an `McpError` raised by a tool handler is propagated to the
caller unchanged (never re-wrapped); any untyped exception is
re-classified as `InternalError` carrying the original message after the
`Error executing tool:` prefix; and every failure the CallTool dispatcher
delivers is a typed `McpError`. -/
theorem callTool_error_propagation (R : Type)
    (hs : String → Option (JsValue → Except JsError R))
    (name : String) (h : JsValue → Except JsError R) (params args : JsValue)
    (hne : ¬ name = "") (hh : hs name = some h)
    (hargs : (getToolSchema name = none ∧ args = params) ∨
      (∃ sch, getToolSchema name = some sch ∧ sch params = Except.ok args)) :
    (∀ cd m, h args = .error (.mcp cd m) →
      callToolDispatch hs getToolSchema (.str name) params = .error (.mcp cd m)) ∧
    (∀ m, h args = .error (.untyped m) →
      callToolDispatch hs getToolSchema (.str name) params
        = .error (.mcp .internalError ("Error executing tool: " ++ m))) ∧
    (∀ nm ps e, callToolDispatch hs getToolSchema nm ps = .error e →
      ∃ cd m, e = .mcp cd m) := by
  have hrun : callToolDispatch hs getToolSchema (.str name) params
      = runToolHandler h args := by
    rcases hargs with ⟨hn, hpe⟩ | ⟨sch, hsome, hok⟩
    · rw [callToolDispatch_noSchema hs getToolSchema name params h hne hh hn, hpe]
    · rw [callToolDispatch_hasSchema hs getToolSchema name params h sch hne hh hsome, hok]
  refine ⟨?_, ?_, ?_⟩
  · intro cd m hm
    rw [hrun]
    exact runToolHandler_mcp h args cd m hm
  · intro m hm
    rw [hrun]
    exact runToolHandler_untyped h args m hm
  · intro nm ps e he
    exact callTool_failure_typed hs getToolSchema nm ps e he

/-- Claim C6 witness: a `get_component` handler throwing the untyped
exception "boom" surfaces as InternalError with the wrapped message. -/
theorem callTool_error_propagation_witness :
    callToolDispatch
      (toolHandlers (fun _ => fun _ => (Except.error (JsError.untyped "boom") : Except JsError Unit)))
      getToolSchema (.str "get_component") (.obj [("componentName", .str "button")])
      = .error (.mcp .internalError ("Error executing tool: " ++ "boom")) := by
  exact (callTool_error_propagation Unit
    (toolHandlers (fun _ => fun _ => Except.error (JsError.untyped "boom")))
    "get_component" (fun _ => Except.error (JsError.untyped "boom"))
    (.obj [("componentName", .str "button")]) (.obj [("componentName", .str "button")])
    (by decide) rfl
    (Or.inr ⟨zodObjectParse getComponentFields, rfl, rfl⟩)).2.1 "boom" rfl

theorem static_uri_not_template (u : String) (hu : u ∈ staticResourceUris) :
    strStartsWith u installScriptPrefix = false ∧
    strStartsWith u installationGuidePrefix = false := by
  fin_cases hu <;> decide

theorem getResourceTemplate_script (uri : String)
    (hp : strStartsWith uri installScriptPrefix = true) :
    getResourceTemplate uri = some fun _ => installScriptResult uri := by
  unfold getResourceTemplate
  rw [hp]
  rfl

theorem getResourceTemplate_guide (uri : String)
    (hp1 : strStartsWith uri installScriptPrefix = false)
    (hp2 : strStartsWith uri installationGuidePrefix = true) :
    getResourceTemplate uri = some fun _ => installationGuideResult uri := by
  unfold getResourceTemplate
  rw [hp1, hp2]
  rfl

/-! ## Claim C7 -/

/-- Claim C7, counterexample: the value `PNPM` lies outside the four
recognized package-manager names, yet the produced script is the pnpm
form, not the npm fallback the claim requires for every value outside the
four names — the switch compares `packageManager.toLowerCase()`, so the
fallback is keyed on the lowercased value. -/
theorem installScript_case_cex :
    extractParam
      "resource-template:get_install_script_for_component?packageManager=PNPM&component=button"
      "packageManager" = some "PNPM" ∧
    ¬ "PNPM" ∈ (["npm", "pnpm", "yarn", "bun"] : List String) ∧
    (installScriptResult
      "resource-template:get_install_script_for_component?packageManager=PNPM&component=button").content
      = "pnpm dlx shadcn@latest add button" ∧
    ¬ ("pnpm dlx shadcn@latest add button" = "npx shadcn@latest add button") := by
  exact ⟨rfl, by decide, rfl, by decide⟩

/-- Claim C7 (amended): `packageManager=pnpm` with `component=button`
produces exactly `pnpm dlx shadcn@latest add button`, and every
packageManager whose lowercased value is outside the four recognized
names (npm, pnpm, yarn, bun) falls back to the npm form
`npx shadcn@latest add <component>`. -/
theorem installScript_fallback (pm c : String)
    (hf : ¬ strToLower pm ∈ (["npm", "pnpm", "yarn", "bun"] : List String)) :
    (∃ h, getResourceTemplate
        "resource-template:get_install_script_for_component?packageManager=pnpm&component=button"
        = some h ∧
      (h ()).content = "pnpm dlx shadcn@latest add button") ∧
    installCommand pm c = "npx shadcn@latest add " ++ c := by
  constructor
  · exact ⟨_, getResourceTemplate_script _ rfl, rfl⟩
  · have h1 : ¬ strToLower pm = "npm" := fun he => hf (by rw [he]; decide)
    have h2 : ¬ strToLower pm = "pnpm" := fun he => hf (by rw [he]; decide)
    have h3 : ¬ strToLower pm = "yarn" := fun he => hf (by rw [he]; decide)
    have h4 : ¬ strToLower pm = "bun" := fun he => hf (by rw [he]; decide)
    unfold installCommand
    rw [if_neg h1, if_neg h2, if_neg h3, if_neg h4]

/-- Claim C7 witness: the unrecognized value `unknown` falls back to the
npm form. -/
theorem installScript_fallback_witness :
    installCommand "unknown" "button" = "npx shadcn@latest add " ++ "button" := by
  exact (installScript_fallback "unknown" "button" (by decide)).2

/-! ## Claim C8 -/

/-- Claim C8, counterexample: the extracted `component` value
`button%20x` is used verbatim — `extractParam` performs no URL-decoding —
so the produced script embeds the percent-escape instead of the decoded
`button x` the claim requires. -/
theorem extractParam_no_decode_cex :
    extractParam
      "resource-template:get_install_script_for_component?packageManager=npm&component=button%20x"
      "component" = some "button%20x" ∧
    String.mk (specUrlDecode ("button%20x".toList)) = "button x" ∧
    (installScriptResult
      "resource-template:get_install_script_for_component?packageManager=npm&component=button%20x").content
      = "npx shadcn@latest add button%20x" ∧
    ¬ ((installScriptResult
      "resource-template:get_install_script_for_component?packageManager=npm&component=button%20x").content
      = "npx shadcn@latest add " ++ String.mk (specUrlDecode ("button%20x".toList))) := by
  exact ⟨rfl, rfl, rfl, by decide⟩

/-- Claim C8 (amended): the bound install-script handler consumes each
extracted parameter value exactly as extracted, with no URL-decoding
step: whenever both parameters extract, the result is
`installCommand` applied to the raw extracted strings. -/
theorem extractParam_raw_use (uri pm c : String)
    (h1 : extractParam uri "packageManager" = some pm)
    (h2 : extractParam uri "component" = some c) :
    installScriptResult uri = ⟨installCommand pm c, "text/plain"⟩ := by
  unfold installScriptResult
  rw [h1, h2]

/-- Claim C8 witness: the percent-encoded component value flows through
to the produced command undecoded. -/
theorem extractParam_raw_use_witness :
    installScriptResult
      "resource-template:get_install_script_for_component?packageManager=npm&component=button%20x"
      = ⟨installCommand "npm" "button%20x", "text/plain"⟩ := by
  exact extractParam_raw_use
    "resource-template:get_install_script_for_component?packageManager=npm&component=button%20x"
    "npm" "button%20x" rfl rfl

/-! ## Claim C9 -/

/-- Claim C9: a URI matching a registered template's prefix always
resolves to a bound handler, even when a required parameter is absent;
in that case the handler returns a well-formed plain-text content result
describing the missing parameter (it cannot throw), and the ReadResource
dispatcher consequently answers with a successful envelope, not a
failure. -/
theorem template_missing_param
    (rimpl : String → Unit → Except JsError ResourceContent) (uri : String) :
    (strStartsWith uri installScriptPrefix = true →
      ∃ h, getResourceTemplate uri = some h ∧
        (extractParam uri "packageManager" = none →
          h () = ⟨"Missing packageManager parameter. Please specify npm, pnpm, or yarn.",
                  "text/plain"⟩ ∧
          readResourceDispatch (resourceHandlers rimpl)
            (liftTemplates getResourceTemplate) uri
            = Except.ok ⟨"text/plain",
                [⟨uri, "Missing packageManager parameter. Please specify npm, pnpm, or yarn."⟩]⟩) ∧
        (∀ pm, extractParam uri "packageManager" = some pm →
          extractParam uri "component" = none →
          h () = ⟨"Missing component parameter. Please specify the component name.",
                  "text/plain"⟩)) ∧
    (strStartsWith uri installScriptPrefix = false →
      strStartsWith uri installationGuidePrefix = true →
      ∃ h, getResourceTemplate uri = some h ∧
        (extractParam uri "framework" = none →
          h () = ⟨"Missing framework parameter. Please specify next, vite, remix, etc.",
                  "text/plain"⟩) ∧
        (∀ fw, extractParam uri "framework" = some fw →
          extractParam uri "packageManager" = none →
          h () = ⟨"Missing packageManager parameter. Please specify npm, pnpm, or yarn.",
                  "text/plain"⟩)) := by
  constructor
  · intro hp
    have hg := getResourceTemplate_script uri hp
    refine ⟨_, hg, ?_, ?_⟩
    · intro hnone
      have hres : installScriptResult uri
          = ⟨"Missing packageManager parameter. Please specify npm, pnpm, or yarn.",
             "text/plain"⟩ := by
        unfold installScriptResult
        rw [hnone]
      refine ⟨hres, ?_⟩
      have hmem : ¬ uri ∈ staticResourceUris := by
        intro hm
        have hfacts := static_uri_not_template uri hm
        rw [hp] at hfacts
        simp at hfacts
      have hstat : resourceHandlers rimpl uri = none := by
        unfold resourceHandlers
        rw [if_neg hmem]
      have hlift : liftTemplates getResourceTemplate uri
          = some fun _ => Except.ok (installScriptResult uri) := by
        unfold liftTemplates
        rw [hg]
        rfl
      unfold readResourceDispatch
      rw [hstat, hlift, hres]
      rfl
    · intro pm hpm hcomp
      unfold installScriptResult
      rw [hpm, hcomp]
  · intro hp1 hp2
    have hg := getResourceTemplate_guide uri hp1 hp2
    refine ⟨_, hg, ?_, ?_⟩
    · intro hnone
      unfold installationGuideResult
      rw [hnone]
    · intro fw hfw hpm
      unfold installationGuideResult
      rw [hfw, hpm]

/-- Claim C9 witness: the bare install-script template URI (no query at
all) resolves and yields the missing-packageManager content through the
dispatcher, and the bare guide URI also resolves to a handler. -/
theorem template_missing_param_witness :
    readResourceDispatch
      (resourceHandlers (fun _ => fun _ => Except.ok ⟨"x", "text/plain"⟩))
      (liftTemplates getResourceTemplate)
      "resource-template:get_install_script_for_component"
      = Except.ok ⟨"text/plain",
          [⟨"resource-template:get_install_script_for_component",
            "Missing packageManager parameter. Please specify npm, pnpm, or yarn."⟩]⟩ ∧
    (getResourceTemplate "resource-template:get_installation_guide").isSome = true := by
  constructor
  · obtain ⟨h, hg, hmiss, _⟩ := (template_missing_param
      (fun _ => fun _ => Except.ok ⟨"x", "text/plain"⟩)
      "resource-template:get_install_script_for_component").1 (by decide)
    exact (hmiss (by decide)).2
  · rfl

end ShadcnMcp
